import Mathlib

/-!
Rockchip MAX98090 machine driver (`sound/soc/rockchip/rockchip_max98090.c`).

A shallow embedding of the three callbacks of the driver:

* `rk_aif1_hw_params` : sample rate to master clock, then the two clock-set calls;
* `rk_init`           : creation of the HDMI jack and of the headset jack;
* `snd_rk_mc_probe`   : resolution of the device-tree references and card registration.

The ASoC core, the device-tree helpers and the HDMI codec are external to the file.
They are a record `Kernel` of result functions, one per external routine; the
callbacks thread a `State` that holds the driver's static objects, the list of
external routines invoked so far (`calls`, oldest first) and the `dev_err` lines.
Pointers are identities (`Nat`), a pointer that may be `NULL` is an `Option`.
-/

namespace RockchipMax98090

/-! ## Constants of kernel headers -/

/-- Modelled from the spec: `EINVAL` of `include/uapi/asm-generic/errno-base.h`
(the header is outside the driver file); the spec calls it `InvalidArgument`. -/
def EINVAL : Int := 22

/-- Modelled from the spec: `SND_SOC_CLOCK_IN` of `include/sound/soc-dai.h`,
the direction "accept that clock as input". -/
def SND_SOC_CLOCK_IN : Int := 0

/-- Modelled from the spec: `SND_SOC_CLOCK_OUT` of `include/sound/soc-dai.h`,
the direction "output that clock". -/
def SND_SOC_CLOCK_OUT : Int := 1

/-- Modelled from the spec: `SND_JACK_HEADPHONE` of `include/sound/jack.h`. -/
def SND_JACK_HEADPHONE : Nat := 0x0001

/-- Modelled from the spec: `SND_JACK_MICROPHONE` of `include/sound/jack.h`. -/
def SND_JACK_MICROPHONE : Nat := 0x0002

/-- Modelled from the spec: `SND_JACK_HEADSET` of `include/sound/jack.h`,
`SND_JACK_HEADPHONE | SND_JACK_MICROPHONE`. -/
def SND_JACK_HEADSET : Nat := SND_JACK_HEADPHONE ||| SND_JACK_MICROPHONE

/-- Modelled from the spec: `SND_JACK_LINEOUT` of `include/sound/jack.h`,
the line-out bit. -/
def SND_JACK_LINEOUT : Nat := 0x0004

/-- Modelled from the spec: `SND_JACK_BTN_0` of `include/sound/jack.h`. -/
def SND_JACK_BTN_0 : Nat := 0x4000

/-- Modelled from the spec: `SND_JACK_BTN_1` of `include/sound/jack.h`. -/
def SND_JACK_BTN_1 : Nat := 0x2000

/-- Modelled from the spec: `SND_JACK_BTN_2` of `include/sound/jack.h`. -/
def SND_JACK_BTN_2 : Nat := 0x1000

/-- Modelled from the spec: `SND_JACK_BTN_3` of `include/sound/jack.h`. -/
def SND_JACK_BTN_3 : Nat := 0x0800

/-! ## Data model -/

/-- Identity of a `struct device`. -/
abbrev device := Nat

/-- Identity of a `struct device_node`. -/
abbrev device_node := Nat

/-- Identity of a `struct snd_soc_codec`. -/
abbrev snd_soc_codec := Nat

/-- The fields of `struct snd_soc_dai` the driver reads. -/
structure snd_soc_dai where
  id : Nat
  dev : device
  codec : snd_soc_codec
deriving DecidableEq, Repr

/-- One entry of a jack pin table (`struct snd_soc_jack_pin`). -/
structure snd_soc_jack_pin where
  pin : String
  mask : Nat
deriving DecidableEq, Repr

/-- The two static jack objects of the file, named by their address. -/
inductive JackRef where
  | headset_jack
  | hdmi_card_jack
deriving DecidableEq, Repr

/-- Headset jack detection DAPM pins. -/
def headset_jack_pins : List snd_soc_jack_pin :=
  [ { pin := "Headphone", mask := SND_JACK_HEADPHONE },
    { pin := "Headset Mic", mask := SND_JACK_MICROPHONE } ]

/-- The pin table of the HDMI jack. -/
def hdmi_jack_pin : List snd_soc_jack_pin :=
  [ { pin := "HDMI", mask := SND_JACK_LINEOUT } ]

/-- A DAPM widget of the card: its kind (`hp`, `mic`, `spk`, `line`) and name. -/
structure snd_soc_dapm_widget where
  kind : String
  name : String
deriving DecidableEq, Repr

/-- The widgets of the card. -/
def rk_dapm_widgets : List snd_soc_dapm_widget :=
  [ { kind := "hp", name := "Headphone" },
    { kind := "mic", name := "Headset Mic" },
    { kind := "mic", name := "Int Mic" },
    { kind := "spk", name := "Speaker" },
    { kind := "line", name := "HDMI" } ]

/-- A DAPM route `{sink, control, source}`; the control is `NULL` in every route. -/
structure snd_soc_dapm_route where
  sink : String
  control : Option String
  source : String
deriving DecidableEq, Repr

/-- The routes of the card. -/
def rk_audio_map : List snd_soc_dapm_route :=
  [ { sink := "IN34", control := none, source := "Headset Mic" },
    { sink := "IN34", control := none, source := "MICBIAS" },
    { sink := "Headset Mic", control := none, source := "MICBIAS" },
    { sink := "DMICL", control := none, source := "Int Mic" },
    { sink := "Headphone", control := none, source := "HPL" },
    { sink := "Headphone", control := none, source := "HPR" },
    { sink := "Speaker", control := none, source := "SPKL" },
    { sink := "Speaker", control := none, source := "SPKR" } ]

/-- The pin switches of the card (`SOC_DAPM_PIN_SWITCH`), by pin name. -/
def rk_mc_controls : List String :=
  ["Headphone", "Headset Mic", "Int Mic", "Speaker", "HDMI"]

/-- The fields of `struct snd_soc_card` the driver sets or hands over. -/
structure snd_soc_card where
  name : String
  dev : Option device
  num_links : Nat
  num_aux_devs : Nat
  dapm_widgets : List snd_soc_dapm_widget
  dapm_routes : List snd_soc_dapm_route
  controls : List String
deriving DecidableEq, Repr

/-- One codec of a DAI link (`struct snd_soc_dai_link_component`). -/
structure snd_soc_dai_link_component where
  name : Option String
  of_node : Option device_node
  dai_name : Option String
deriving DecidableEq, Repr

/-- The fields of `struct snd_soc_dai_link` the driver sets; `codecs` is the
two-element static array `rk_codecs`, entry 0 then entry 1. -/
structure snd_soc_dai_link where
  name : String
  stream_name : String
  codecs : snd_soc_dai_link_component × snd_soc_dai_link_component
  num_codecs : Nat
  cpu_of_node : Option device_node
  platform_of_node : Option device_node
deriving DecidableEq, Repr

/-- The headset chip as auxiliary device (`struct snd_soc_aux_dev`). -/
structure snd_soc_aux_dev where
  name : String
  codec_of_node : Option device_node
deriving DecidableEq, Repr

/-- The output of `of_parse_phandle_with_fixed_args` (`struct of_phandle_args`). -/
structure of_phandle_args where
  np : Option device_node
  args_count : Int
  args : List Nat
deriving DecidableEq, Repr

/-- The fields of `struct snd_soc_pcm_runtime` the callbacks read. -/
structure snd_soc_pcm_runtime where
  card : snd_soc_card
  cpu_dai : snd_soc_dai
  codec_dai : snd_soc_dai
  codec_dais : List snd_soc_dai
deriving DecidableEq, Repr

/-- A PCM substream; `private_data` is its runtime. -/
structure snd_pcm_substream where
  private_data : snd_soc_pcm_runtime
deriving DecidableEq, Repr

/-- The hardware parameters of a stream; `rate` is the configured sample rate. -/
structure snd_pcm_hw_params where
  rate : Nat
deriving DecidableEq, Repr

/-- Modelled from the spec: `params_rate` of `include/sound/pcm_params.h`, the
sample rate of the stream as an `unsigned int`. -/
def params_rate (p : snd_pcm_hw_params) : Nat := p.rate % 4294967296

/-- The embedded `struct device` of a platform device. -/
structure platform_dev where
  id : device
  of_node : device_node
deriving DecidableEq, Repr

/-- A platform device (`struct platform_device`). -/
structure platform_device where
  dev : platform_dev
deriving DecidableEq, Repr

/-! ## External routines -/

/-- An invocation of an external routine, with its arguments. -/
inductive Call where
  | snd_soc_dai_set_sysclk (dai : snd_soc_dai) (clk_id : Int) (freq : Nat) (dir : Int)
  | snd_soc_card_jack_new (card : snd_soc_card) (id : String) (type : Nat)
      (jack : JackRef) (pins : List snd_soc_jack_pin) (num_pins : Nat)
  | hdmi_codec_set_jack_detect (codec : snd_soc_codec) (jack : JackRef)
  | of_parse_phandle (np : device_node) (phandle_name : String) (index : Int)
  | of_parse_phandle_with_fixed_args (np : device_node) (list_name : String)
      (cell_count : Int) (index : Int)
  | snd_soc_get_dai_name (args : of_phandle_args)
  | snd_soc_of_parse_card_name (card : snd_soc_card) (propname : String)
  | devm_snd_soc_register_card (dev : device) (card : snd_soc_card)
      (dai_link : snd_soc_dai_link) (aux_dev : snd_soc_aux_dev)
  | ts3a227e_enable_jack_detect (component : Nat) (jack : JackRef)
deriving DecidableEq, Repr

/-- One `dev_err` line: the device, the format string and its arguments. -/
structure LogLine where
  dev : Option device
  fmt : String
  args : List Int
deriving DecidableEq, Repr

/-- The results of the external routines. A routine with an output parameter
returns the value it stores there next to its return code; card registration is
given the card and the two objects the card points to. -/
structure Kernel where
  snd_soc_dai_set_sysclk : snd_soc_dai → Int → Nat → Int → Int
  snd_soc_card_jack_new :
    snd_soc_card → String → Nat → JackRef → List snd_soc_jack_pin → Nat → Int
  of_parse_phandle : device_node → String → Int → Option device_node
  of_parse_phandle_with_fixed_args :
    device_node → String → Int → Int → Int × of_phandle_args
  snd_soc_get_dai_name : of_phandle_args → Int × Option String
  snd_soc_of_parse_card_name : snd_soc_card → String → Int × String
  devm_snd_soc_register_card :
    device → snd_soc_card → snd_soc_dai_link → snd_soc_aux_dev → Int
  ts3a227e_enable_jack_detect : Nat → JackRef → Int

/-- The static objects of the driver, the external routines invoked so far
(oldest first) and the `dev_err` lines written so far. -/
structure State where
  rk_dailink : snd_soc_dai_link
  rk_98090_headset_dev : snd_soc_aux_dev
  snd_soc_card_rk : snd_soc_card
  calls : List Call
  klog : List LogLine
deriving DecidableEq, Repr

/-- Record the invocation of an external routine. -/
def State.call (s : State) (c : Call) : State :=
  { s with calls := s.calls ++ [c] }

/-- Record a `dev_err` line. -/
def State.dev_err (s : State) (dev : Option device) (fmt : String) (args : List Int) : State :=
  { s with klog := s.klog ++ [{ dev := dev, fmt := fmt, args := args }] }

/-- The static objects as the file initialises them. -/
def State.init : State :=
  { rk_dailink :=
      { name := "Codecs"
        stream_name := "Audio"
        codecs :=
          ({ name := none, of_node := none, dai_name := none },
           { name := some "hdmi-audio-codec.5.auto", of_node := none,
             dai_name := some "i2s-hifi" })
        num_codecs := 2
        cpu_of_node := none
        platform_of_node := none }
    rk_98090_headset_dev := { name := "Headset Chip", codec_of_node := none }
    snd_soc_card_rk :=
      { name := "ROCKCHIP-I2S"
        dev := none
        num_links := 1
        num_aux_devs := 1
        dapm_widgets := rk_dapm_widgets
        dapm_routes := rk_audio_map
        controls := rk_mc_controls }
    calls := []
    klog := [] }

/-- The routines of a kernel in which every call succeeds: each reference
resolves to node `7`, each return code is `0`. -/
def Kernel.ok : Kernel :=
  { snd_soc_dai_set_sysclk := fun _ _ _ _ => 0
    snd_soc_card_jack_new := fun _ _ _ _ _ _ => 0
    of_parse_phandle := fun _ _ _ => some 7
    of_parse_phandle_with_fixed_args := fun _ _ _ _ =>
      (0, { np := some 7, args_count := 0, args := [] })
    snd_soc_get_dai_name := fun _ => (0, some "HiFi")
    snd_soc_of_parse_card_name := fun _ _ => (0, "VEYRON-I2S")
    devm_snd_soc_register_card := fun _ _ _ _ => 0
    ts3a227e_enable_jack_detect := fun _ _ => 0 }

/-- A kernel in which the clock-set call with direction out is refused with
`-16` (`-EBUSY`) and every other call succeeds. -/
def Kernel.cpu_clock_busy : Kernel :=
  { Kernel.ok with
    snd_soc_dai_set_sysclk := fun _ _ _ dir => if dir = SND_SOC_CLOCK_OUT then -16 else 0 }

/-- A kernel in which the clock-set call with direction in is refused with
`-22` and every other call succeeds. -/
def Kernel.codec_clock_invalid : Kernel :=
  { Kernel.ok with
    snd_soc_dai_set_sysclk := fun _ _ _ dir => if dir = SND_SOC_CLOCK_IN then -22 else 0 }

/-- A kernel in which the device-tree reference `name` does not resolve and
every other call succeeds. -/
def Kernel.unresolved (name : String) : Kernel :=
  { Kernel.ok with
    of_parse_phandle := fun _ prop _ => if prop = name then none else some 7 }

/-- The platform device in the examples. -/
def pdev0 : platform_device := { dev := { id := 1, of_node := 100 } }

/-- The DAI of the I2S controller in the examples. -/
def cpu_dai0 : snd_soc_dai := { id := 1, dev := 10, codec := 0 }

/-- The DAI of the MAX98090 in the examples. -/
def codec_dai0 : snd_soc_dai := { id := 2, dev := 20, codec := 200 }

/-- The DAI of the HDMI codec in the examples. -/
def hdmi_dai0 : snd_soc_dai := { id := 3, dev := 30, codec := 300 }

/-- The runtime of the one DAI link in the examples: the card as registered, the
I2S DAI and the two codec DAIs. -/
def runtime0 : snd_soc_pcm_runtime :=
  { card := { State.init.snd_soc_card_rk with dev := some 1 }
    cpu_dai := cpu_dai0
    codec_dai := codec_dai0
    codec_dais := [codec_dai0, hdmi_dai0] }

/-- A substream of `runtime0`. -/
def substream0 : snd_pcm_substream := { private_data := runtime0 }

/-- The rate-to-clock table as the specification words it: the supported sample
rates, each with its master clock in Hz. It is compared with the `switch` of
`rk_aif1_hw_params`. -/
def rate_to_clock_table : List (Nat × Nat) :=
  [(8000, 12288000), (16000, 12288000), (48000, 12288000), (96000, 12288000),
   (44100, 11289600)]

/-- The number of bits set in a 32-bit event mask. -/
def popcount (mask : Nat) : Nat :=
  ((List.range 32).filter (fun i => mask.testBit i)).length

/-- The event masks of the jack-creation calls for the jack named `id` in a list
of calls. -/
def jack_new_types (id : String) (calls : List Call) : List Nat :=
  calls.filterMap fun c =>
    match c with
    | Call.snd_soc_card_jack_new _ name type _ _ _ => if name = id then some type else none
    | _ => none

/-! ## `rk_aif1_hw_params` -/

/-- The `hw_params` callback: the `switch` on the rate, then the clock-set call on
the CPU DAI (direction out) and on the codec DAI (direction in). -/
def rk_aif1_hw_params (k : Kernel) (substream : snd_pcm_substream)
    (params : snd_pcm_hw_params) (s : State) : Int × State :=
  let rtd := substream.private_data
  let cpu_dai := rtd.cpu_dai
  let codec_dai := rtd.codec_dai
  let rate := params_rate params
  let mclk? : Option Int :=
    if rate = 8000 ∨ rate = 16000 ∨ rate = 48000 ∨ rate = 96000 then some 12288000
    else if rate = 44100 then some 11289600
    else none
  match mclk? with
  | none => (-EINVAL, s)
  | some mclk =>
    let freq := (mclk % 4294967296).toNat
    let ret := k.snd_soc_dai_set_sysclk cpu_dai 0 freq SND_SOC_CLOCK_OUT
    let s := s.call (Call.snd_soc_dai_set_sysclk cpu_dai 0 freq SND_SOC_CLOCK_OUT)
    if ret < 0 then
      (ret, s.dev_err (some codec_dai.dev) "Can't set codec clock %d\n" [ret])
    else
      let ret := k.snd_soc_dai_set_sysclk codec_dai 0 freq SND_SOC_CLOCK_IN
      let s := s.call (Call.snd_soc_dai_set_sysclk codec_dai 0 freq SND_SOC_CLOCK_IN)
      if ret < 0 then
        (ret, s.dev_err (some codec_dai.dev) "Can't set codec clock %d\n" [ret])
      else
        (ret, s)

/-! ## `rk_init` and `rk_98090_headset_init` -/

/-- The `init` callback of the DAI link: create the HDMI jack, hand it to the HDMI
codec (the codec of `codec_dais[1]`), create the headset jack. The result is
`none` when the runtime has no `codec_dais[1]` to read. -/
def rk_init (k : Kernel) (runtime : snd_soc_pcm_runtime) (s : State) :
    Option (Int × State) :=
  let card := runtime.card
  match runtime.codec_dais[1]? with
  | none => none
  | some dai1 =>
    let codec := dai1.codec
    let ret := k.snd_soc_card_jack_new card "HDMI" SND_JACK_LINEOUT
      JackRef.hdmi_card_jack hdmi_jack_pin hdmi_jack_pin.length
    let s := s.call (Call.snd_soc_card_jack_new card "HDMI" SND_JACK_LINEOUT
      JackRef.hdmi_card_jack hdmi_jack_pin hdmi_jack_pin.length)
    if ret ≠ 0 then
      some (ret, s.dev_err card.dev "Can't create HDMI Jack %d\n" [ret])
    else
      let s := s.call (Call.hdmi_codec_set_jack_detect codec JackRef.hdmi_card_jack)
      let type := SND_JACK_HEADSET ||| SND_JACK_BTN_0 ||| SND_JACK_BTN_1 |||
        SND_JACK_BTN_2 ||| SND_JACK_BTN_3
      some (k.snd_soc_card_jack_new runtime.card "Headset Jack" type
              JackRef.headset_jack headset_jack_pins headset_jack_pins.length,
            s.call (Call.snd_soc_card_jack_new runtime.card "Headset Jack" type
              JackRef.headset_jack headset_jack_pins headset_jack_pins.length))

/-- The `init` callback of the auxiliary device: the headset chip reports into
`headset_jack`. -/
def rk_98090_headset_init (k : Kernel) (component : Nat) (s : State) : Int × State :=
  (k.ts3a227e_enable_jack_detect component JackRef.headset_jack,
   s.call (Call.ts3a227e_enable_jack_detect component JackRef.headset_jack))

/-! ## `snd_rk_mc_probe` -/

/-- The platform probe: resolve the three device-tree references, fill the DAI
link and the auxiliary device, read the card name and register the card. Each
failing step logs and returns at once. -/
def snd_rk_mc_probe (k : Kernel) (pdev : platform_device) (s : State) : Int × State :=
  let np := pdev.dev.of_node
  let dev := pdev.dev.id
  let s := { s with snd_soc_card_rk := { s.snd_soc_card_rk with dev := some dev } }
  let node := k.of_parse_phandle np "rockchip,audio-codec" 0
  let s := s.call (Call.of_parse_phandle np "rockchip,audio-codec" 0)
  let s := { s with rk_dailink := { s.rk_dailink with
    codecs := ({ s.rk_dailink.codecs.1 with of_node := node }, s.rk_dailink.codecs.2) } }
  if s.rk_dailink.codecs.1.of_node = none then
    (-EINVAL,
     s.dev_err (some dev) "Property 'rockchip,audio-codec' missing or invalid\n" [])
  else
    let r := k.of_parse_phandle_with_fixed_args np "rockchip,audio-codec" 0 0
    let s := s.call (Call.of_parse_phandle_with_fixed_args np "rockchip,audio-codec" 0 0)
    let ret := r.1
    let args := r.2
    if ret ≠ 0 then
      (ret, s.dev_err (some dev) "Unable to parse property 'rockchip,audio-codec'\n" [])
    else
      let r := k.snd_soc_get_dai_name args
      let s := s.call (Call.snd_soc_get_dai_name args)
      let ret := r.1
      let s := { s with rk_dailink := { s.rk_dailink with
        codecs := ({ s.rk_dailink.codecs.1 with dai_name := r.2 }, s.rk_dailink.codecs.2) } }
      if ret ≠ 0 then
        (ret, s.dev_err (some dev) "Unable to get codec_dai_name\n" [])
      else
        let node := k.of_parse_phandle np "rockchip,i2s-controller" 0
        let s := s.call (Call.of_parse_phandle np "rockchip,i2s-controller" 0)
        let s := { s with rk_dailink := { s.rk_dailink with cpu_of_node := node } }
        if s.rk_dailink.cpu_of_node = none then
          (-EINVAL,
           s.dev_err (some dev)
             "Property 'rockchip,i2s-controller' missing or invalid\n" [])
        else
          let s := { s with rk_dailink := { s.rk_dailink with
            platform_of_node := s.rk_dailink.cpu_of_node } }
          let node := k.of_parse_phandle np "rockchip,headset-codec" 0
          let s := s.call (Call.of_parse_phandle np "rockchip,headset-codec" 0)
          let s := { s with rk_98090_headset_dev := { s.rk_98090_headset_dev with
            codec_of_node := node } }
          if s.rk_98090_headset_dev.codec_of_node = none then
            (-EINVAL,
             s.dev_err (some dev)
               "Property 'rockchip,headset-codec' missing/invalid\n" [])
          else
            let r := k.snd_soc_of_parse_card_name s.snd_soc_card_rk "rockchip,model"
            let s := s.call
              (Call.snd_soc_of_parse_card_name s.snd_soc_card_rk "rockchip,model")
            let ret := r.1
            let s := { s with snd_soc_card_rk := { s.snd_soc_card_rk with name := r.2 } }
            if ret ≠ 0 then
              (ret, s.dev_err (some dev) "Soc parse card name failed %d\n" [ret])
            else
              let ret := k.devm_snd_soc_register_card dev s.snd_soc_card_rk
                s.rk_dailink s.rk_98090_headset_dev
              let s := s.call (Call.devm_snd_soc_register_card dev s.snd_soc_card_rk
                s.rk_dailink s.rk_98090_headset_dev)
              if ret ≠ 0 then
                (ret, s.dev_err (some dev) "Soc register card failed %d\n" [ret])
              else
                (ret, s)

/-! ## The probe as a list of steps -/

/-- Whether a call is the card registration. -/
def Call.is_card_registration : Call → Bool
  | Call.devm_snd_soc_register_card _ _ _ _ => true
  | _ => false

/-- The last step of the probe in the order of the specification: the
registration of the card, filled with the resolved references and the parsed
name, and the code it returns. -/
def probe_register_step (k : Kernel) (pdev : platform_device) (s : State) : Call × Int :=
  let np := pdev.dev.of_node
  let dev := pdev.dev.id
  let codec := k.of_parse_phandle np "rockchip,audio-codec" 0
  let parsed := k.of_parse_phandle_with_fixed_args np "rockchip,audio-codec" 0 0
  let dai := k.snd_soc_get_dai_name parsed.2
  let i2s := k.of_parse_phandle np "rockchip,i2s-controller" 0
  let headset := k.of_parse_phandle np "rockchip,headset-codec" 0
  let card : snd_soc_card := { s.snd_soc_card_rk with dev := some dev }
  let named := k.snd_soc_of_parse_card_name card "rockchip,model"
  let card1 : snd_soc_card := { card with name := named.2 }
  let link : snd_soc_dai_link :=
    { s.rk_dailink with
      codecs := ({ s.rk_dailink.codecs.1 with of_node := codec, dai_name := dai.2 },
                 s.rk_dailink.codecs.2)
      cpu_of_node := i2s
      platform_of_node := i2s }
  let aux : snd_soc_aux_dev := { s.rk_98090_headset_dev with codec_of_node := headset }
  (Call.devm_snd_soc_register_card dev card1 link aux,
   k.devm_snd_soc_register_card dev card1 link aux)

/-- The six steps of the probe that precede the registration, in the order of the
specification, each as the external call it makes and the code it yields (0 when
it succeeds): resolve the audio-codec reference, parse its phandle arguments, get
the codec DAI name, resolve the I2S-controller reference, resolve the
headset-codec reference, parse the card name. An unresolved reference yields
`-EINVAL`, another step the code its call returns. -/
def probe_lookup_steps (k : Kernel) (pdev : platform_device) (s : State) :
    List (Call × Int) :=
  let np := pdev.dev.of_node
  let dev := pdev.dev.id
  let parsed := k.of_parse_phandle_with_fixed_args np "rockchip,audio-codec" 0 0
  let card : snd_soc_card := { s.snd_soc_card_rk with dev := some dev }
  [ (Call.of_parse_phandle np "rockchip,audio-codec" 0,
      if k.of_parse_phandle np "rockchip,audio-codec" 0 = none then -EINVAL else 0),
    (Call.of_parse_phandle_with_fixed_args np "rockchip,audio-codec" 0 0, parsed.1),
    (Call.snd_soc_get_dai_name parsed.2, (k.snd_soc_get_dai_name parsed.2).1),
    (Call.of_parse_phandle np "rockchip,i2s-controller" 0,
      if k.of_parse_phandle np "rockchip,i2s-controller" 0 = none then -EINVAL else 0),
    (Call.of_parse_phandle np "rockchip,headset-codec" 0,
      if k.of_parse_phandle np "rockchip,headset-codec" 0 = none then -EINVAL else 0),
    (Call.snd_soc_of_parse_card_name card "rockchip,model",
      (k.snd_soc_of_parse_card_name card "rockchip,model").1) ]

/-- The seven steps of the probe in the order of the specification. -/
def probe_steps (k : Kernel) (pdev : platform_device) (s : State) : List (Call × Int) :=
  probe_lookup_steps k pdev s ++ [probe_register_step k pdev s]

/-- Run a list of steps in order and stop at the first one whose code is not 0:
the calls made, and the code of the step that failed (0 when none did). -/
def run_steps : List (Call × Int) → List Call × Int
  | [] => ([], 0)
  | (c, code) :: rest =>
    if code ≠ 0 then ([c], code)
    else (c :: (run_steps rest).1, (run_steps rest).2)

/-! ## Properties of `rk_aif1_hw_params` -/

/-- The `switch` of `rk_aif1_hw_params` on a rate of the table: the callback is the
two clock-set calls at the frequency of the table. -/
theorem rk_aif1_hw_params_of_table (k : Kernel) (substream : snd_pcm_substream)
    (params : snd_pcm_hw_params) (s : State) (freq : Nat)
    (ht : (params_rate params, freq) ∈ rate_to_clock_table) :
    rk_aif1_hw_params k substream params s =
      let cpu_dai := substream.private_data.cpu_dai
      let codec_dai := substream.private_data.codec_dai
      let s1 := s.call (Call.snd_soc_dai_set_sysclk cpu_dai 0 freq SND_SOC_CLOCK_OUT)
      let s2 := s1.call (Call.snd_soc_dai_set_sysclk codec_dai 0 freq SND_SOC_CLOCK_IN)
      let r1 := k.snd_soc_dai_set_sysclk cpu_dai 0 freq SND_SOC_CLOCK_OUT
      let r2 := k.snd_soc_dai_set_sysclk codec_dai 0 freq SND_SOC_CLOCK_IN
      if r1 < 0 then (r1, s1.dev_err (some codec_dai.dev) "Can't set codec clock %d\n" [r1])
      else if r2 < 0 then
        (r2, s2.dev_err (some codec_dai.dev) "Can't set codec clock %d\n" [r2])
      else (r2, s2) := by
  simp only [rate_to_clock_table, List.mem_cons, Prod.mk.injEq, List.mem_singleton,
    List.not_mem_nil, or_false] at ht
  rcases ht with ⟨hr, rfl⟩ | ⟨hr, rfl⟩ | ⟨hr, rfl⟩ | ⟨hr, rfl⟩ | ⟨hr, rfl⟩ <;>
    simp [rk_aif1_hw_params, hr]

/-- C1: for a stream whose rate is 8000, 16000, 48000 or 96000 the frequency handed
to the clock-set calls is 12288000 Hz, for the rate 44100 it is 11289600 Hz: the
calls the callback adds are the CPU-DAI clock-set at that frequency, alone or
followed by the codec-DAI clock-set at that frequency. -/
theorem rk_aif1_hw_params_mclk (k : Kernel) (substream : snd_pcm_substream)
    (params : snd_pcm_hw_params) (s : State) (freq : Nat)
    (h : (params_rate params ∈ [8000, 16000, 48000, 96000] ∧ freq = 12288000) ∨
         (params_rate params = 44100 ∧ freq = 11289600)) :
    (rk_aif1_hw_params k substream params s).2.calls =
        s.calls ++ [Call.snd_soc_dai_set_sysclk substream.private_data.cpu_dai 0 freq
          SND_SOC_CLOCK_OUT] ∨
    (rk_aif1_hw_params k substream params s).2.calls =
        s.calls ++ [Call.snd_soc_dai_set_sysclk substream.private_data.cpu_dai 0 freq
          SND_SOC_CLOCK_OUT,
        Call.snd_soc_dai_set_sysclk substream.private_data.codec_dai 0 freq
          SND_SOC_CLOCK_IN] := by
  have ht : (params_rate params, freq) ∈ rate_to_clock_table := by
    simp only [rate_to_clock_table, List.mem_cons, Prod.mk.injEq, List.mem_singleton,
      List.not_mem_nil, or_false] at h ⊢
    omega
  rw [rk_aif1_hw_params_of_table k substream params s freq ht]
  dsimp only
  split
  · left; simp [State.call, State.dev_err]
  · right; split <;> simp [State.call, State.dev_err]

/-- C1 at the rates 48000 and 44100 of `substream0`, every call succeeding. -/
theorem rk_aif1_hw_params_mclk_witness :
    (rk_aif1_hw_params Kernel.ok substream0 { rate := 48000 } State.init).2.calls =
      [Call.snd_soc_dai_set_sysclk cpu_dai0 0 12288000 SND_SOC_CLOCK_OUT,
       Call.snd_soc_dai_set_sysclk codec_dai0 0 12288000 SND_SOC_CLOCK_IN] ∧
    (rk_aif1_hw_params Kernel.ok substream0 { rate := 44100 } State.init).2.calls =
      [Call.snd_soc_dai_set_sysclk cpu_dai0 0 11289600 SND_SOC_CLOCK_OUT,
       Call.snd_soc_dai_set_sysclk codec_dai0 0 11289600 SND_SOC_CLOCK_IN] := by
  have h1 := rk_aif1_hw_params_mclk Kernel.ok substream0 { rate := 48000 } State.init
    12288000 (Or.inl ⟨by decide, rfl⟩)
  have h2 := rk_aif1_hw_params_mclk Kernel.ok substream0 { rate := 44100 } State.init
    11289600 (Or.inr ⟨by decide, rfl⟩)
  constructor
  · rcases h1 with h | h
    · exact absurd h (by decide)
    · exact h
  · rcases h2 with h | h
    · exact absurd h (by decide)
    · exact h

/-- C2: for a rate outside 8000, 16000, 44100, 48000, 96000 (the rate is an
`unsigned int`, so 0, 22050 and the values above `2^31 - 1` are among them) the
callback returns `-EINVAL` and leaves the state as it was: no clock-set call on
either DAI, no log line. -/
theorem rk_aif1_hw_params_unsupported (k : Kernel) (substream : snd_pcm_substream)
    (params : snd_pcm_hw_params) (s : State)
    (h : params_rate params ∉ [8000, 16000, 44100, 48000, 96000]) :
    rk_aif1_hw_params k substream params s = (-EINVAL, s) := by
  simp only [List.mem_cons, List.mem_singleton, List.not_mem_nil, or_false, not_or] at h
  obtain ⟨h1, h2, h3, h4, h5⟩ := h
  simp [rk_aif1_hw_params, h1, h2, h3, h4, h5]

/-- C2 at the rates 0, 22050 and `2^32 - 1` (which is `-1` as a signed int). -/
theorem rk_aif1_hw_params_unsupported_witness :
    rk_aif1_hw_params Kernel.ok substream0 { rate := 0 } State.init =
      (-EINVAL, State.init) ∧
    rk_aif1_hw_params Kernel.ok substream0 { rate := 22050 } State.init =
      (-EINVAL, State.init) ∧
    rk_aif1_hw_params Kernel.ok substream0 { rate := 4294967295 } State.init =
      (-EINVAL, State.init) :=
  ⟨rk_aif1_hw_params_unsupported Kernel.ok substream0 { rate := 0 } State.init
     (by decide),
   rk_aif1_hw_params_unsupported Kernel.ok substream0 { rate := 22050 } State.init
     (by decide),
   rk_aif1_hw_params_unsupported Kernel.ok substream0 { rate := 4294967295 } State.init
     (by decide)⟩

/-- C3: for a supported rate (an entry of the table, with its frequency), if the
clock-set call on the CPU DAI returns a negative code, the callback returns that
code, and the one call it has added is that CPU-DAI call: the codec-DAI clock-set
is not made. -/
theorem rk_aif1_hw_params_cpu_dai_error (k : Kernel) (substream : snd_pcm_substream)
    (params : snd_pcm_hw_params) (s : State) (freq : Nat)
    (ht : (params_rate params, freq) ∈ rate_to_clock_table)
    (he : k.snd_soc_dai_set_sysclk substream.private_data.cpu_dai 0 freq
      SND_SOC_CLOCK_OUT < 0) :
    (rk_aif1_hw_params k substream params s).1 =
      k.snd_soc_dai_set_sysclk substream.private_data.cpu_dai 0 freq SND_SOC_CLOCK_OUT ∧
    (rk_aif1_hw_params k substream params s).2.calls =
      s.calls ++ [Call.snd_soc_dai_set_sysclk substream.private_data.cpu_dai 0 freq
        SND_SOC_CLOCK_OUT] := by
  rw [rk_aif1_hw_params_of_table k substream params s freq ht]
  simp [he, State.call, State.dev_err]

/-- C3 at the rate 48000, the CPU DAI refusing the clock with `-16`. -/
theorem rk_aif1_hw_params_cpu_dai_error_witness :
    (rk_aif1_hw_params Kernel.cpu_clock_busy substream0 { rate := 48000 } State.init).1 =
      -16 ∧
    (rk_aif1_hw_params Kernel.cpu_clock_busy substream0 { rate := 48000 }
        State.init).2.calls =
      [Call.snd_soc_dai_set_sysclk cpu_dai0 0 12288000 SND_SOC_CLOCK_OUT] :=
  rk_aif1_hw_params_cpu_dai_error Kernel.cpu_clock_busy substream0 { rate := 48000 }
    State.init 12288000 (by decide) (by decide)

/-- C4: for a supported rate, if the clock-set call on the CPU DAI succeeds (its
code is not negative) and the one on the codec DAI returns a negative code, the
callback returns the codec's code, and the calls it has added are the CPU-DAI
clock-set followed by the codec-DAI clock-set and nothing else. -/
theorem rk_aif1_hw_params_codec_dai_error (k : Kernel) (substream : snd_pcm_substream)
    (params : snd_pcm_hw_params) (s : State) (freq : Nat)
    (ht : (params_rate params, freq) ∈ rate_to_clock_table)
    (hcpu : 0 ≤ k.snd_soc_dai_set_sysclk substream.private_data.cpu_dai 0 freq
      SND_SOC_CLOCK_OUT)
    (he : k.snd_soc_dai_set_sysclk substream.private_data.codec_dai 0 freq
      SND_SOC_CLOCK_IN < 0) :
    (rk_aif1_hw_params k substream params s).1 =
      k.snd_soc_dai_set_sysclk substream.private_data.codec_dai 0 freq
        SND_SOC_CLOCK_IN ∧
    (rk_aif1_hw_params k substream params s).2.calls =
      s.calls ++ [Call.snd_soc_dai_set_sysclk substream.private_data.cpu_dai 0 freq
          SND_SOC_CLOCK_OUT,
        Call.snd_soc_dai_set_sysclk substream.private_data.codec_dai 0 freq
          SND_SOC_CLOCK_IN] := by
  rw [rk_aif1_hw_params_of_table k substream params s freq ht]
  simp [not_lt.mpr hcpu, he, State.call, State.dev_err]

/-- C4 at the rate 44100, the codec DAI refusing the clock with `-22`. -/
theorem rk_aif1_hw_params_codec_dai_error_witness :
    (rk_aif1_hw_params Kernel.codec_clock_invalid substream0 { rate := 44100 }
        State.init).1 = -22 ∧
    (rk_aif1_hw_params Kernel.codec_clock_invalid substream0 { rate := 44100 }
        State.init).2.calls =
      [Call.snd_soc_dai_set_sysclk cpu_dai0 0 11289600 SND_SOC_CLOCK_OUT,
       Call.snd_soc_dai_set_sysclk codec_dai0 0 11289600 SND_SOC_CLOCK_IN] :=
  rk_aif1_hw_params_codec_dai_error Kernel.codec_clock_invalid substream0
    { rate := 44100 } State.init 11289600 (by decide) (by decide) (by decide)

/-- C5: for a supported rate, when both clock-set calls return 0 the callback
returns 0 and what it has done is exactly two calls in this order: clock-set on
the CPU DAI with clock id 0, the frequency of the table and direction out, then
clock-set on the codec DAI with clock id 0, the same frequency and direction in.
Nothing is logged. -/
theorem rk_aif1_hw_params_success (k : Kernel) (substream : snd_pcm_substream)
    (params : snd_pcm_hw_params) (s : State) (freq : Nat)
    (ht : (params_rate params, freq) ∈ rate_to_clock_table)
    (hcpu : k.snd_soc_dai_set_sysclk substream.private_data.cpu_dai 0 freq
      SND_SOC_CLOCK_OUT = 0)
    (hcodec : k.snd_soc_dai_set_sysclk substream.private_data.codec_dai 0 freq
      SND_SOC_CLOCK_IN = 0) :
    rk_aif1_hw_params k substream params s =
      (0, { s with calls := s.calls ++
        [Call.snd_soc_dai_set_sysclk substream.private_data.cpu_dai 0 freq
           SND_SOC_CLOCK_OUT,
         Call.snd_soc_dai_set_sysclk substream.private_data.codec_dai 0 freq
           SND_SOC_CLOCK_IN] }) := by
  rw [rk_aif1_hw_params_of_table k substream params s freq ht]
  simp [hcpu, hcodec, State.call]

/-- C5 at the rate 8000 of `substream0`, from the initial state. -/
theorem rk_aif1_hw_params_success_witness :
    rk_aif1_hw_params Kernel.ok substream0 { rate := 8000 } State.init =
      (0, { State.init with calls :=
        [Call.snd_soc_dai_set_sysclk cpu_dai0 0 12288000 SND_SOC_CLOCK_OUT,
         Call.snd_soc_dai_set_sysclk codec_dai0 0 12288000 SND_SOC_CLOCK_IN] }) :=
  rk_aif1_hw_params_success Kernel.ok substream0 { rate := 8000 } State.init 12288000
    (by decide) rfl rfl

/-! ## Properties of `rk_init` -/

/-- The two branches of `rk_init` on a runtime with a second codec DAI. -/
theorem rk_init_eq (k : Kernel) (runtime : snd_soc_pcm_runtime) (s : State)
    (dai1 : snd_soc_dai) (h : runtime.codec_dais[1]? = some dai1) :
    rk_init k runtime s =
      let hdmi := Call.snd_soc_card_jack_new runtime.card "HDMI" SND_JACK_LINEOUT
        JackRef.hdmi_card_jack hdmi_jack_pin 1
      let r1 := k.snd_soc_card_jack_new runtime.card "HDMI" SND_JACK_LINEOUT
        JackRef.hdmi_card_jack hdmi_jack_pin 1
      let type := SND_JACK_HEADSET ||| SND_JACK_BTN_0 ||| SND_JACK_BTN_1 |||
        SND_JACK_BTN_2 ||| SND_JACK_BTN_3
      if r1 ≠ 0 then
        some (r1, (s.call hdmi).dev_err runtime.card.dev "Can't create HDMI Jack %d\n" [r1])
      else
        some (k.snd_soc_card_jack_new runtime.card "Headset Jack" type
                JackRef.headset_jack headset_jack_pins 2,
              { s with calls := s.calls ++
                [hdmi, Call.hdmi_codec_set_jack_detect dai1.codec JackRef.hdmi_card_jack,
                 Call.snd_soc_card_jack_new runtime.card "Headset Jack" type
                   JackRef.headset_jack headset_jack_pins 2] }) := by
  have e1 : hdmi_jack_pin.length = 1 := rfl
  have e2 : headset_jack_pins.length = 2 := rfl
  simp only [rk_init, h, e1, e2]
  split <;> simp_all [State.call]

/-- C8: on a runtime whose second codec DAI is that of the HDMI codec, when the two
jack creations return 0, `rk_init` returns 0 and does exactly this, in this order:
it creates the jack "HDMI" with the mask `SND_JACK_LINEOUT` (one bit) and the one
pin "HDMI"; it binds that jack, `hdmi_card_jack`, to the HDMI codec; it creates
the jack "Headset Jack" with the mask `SND_JACK_HEADSET` or-ed with the four
button bits and the pins "Headphone" and "Headset Mic". There is no other call
and no log line. -/
theorem rk_init_success (k : Kernel) (runtime : snd_soc_pcm_runtime) (s : State)
    (dai1 : snd_soc_dai) (h : runtime.codec_dais[1]? = some dai1)
    (h1 : k.snd_soc_card_jack_new runtime.card "HDMI" SND_JACK_LINEOUT
      JackRef.hdmi_card_jack [{ pin := "HDMI", mask := SND_JACK_LINEOUT }] 1 = 0)
    (h2 : k.snd_soc_card_jack_new runtime.card "Headset Jack"
      (SND_JACK_HEADSET ||| SND_JACK_BTN_0 ||| SND_JACK_BTN_1 ||| SND_JACK_BTN_2 |||
        SND_JACK_BTN_3) JackRef.headset_jack
      [{ pin := "Headphone", mask := SND_JACK_HEADPHONE },
       { pin := "Headset Mic", mask := SND_JACK_MICROPHONE }] 2 = 0) :
    rk_init k runtime s = some (0, { s with calls := s.calls ++
      [Call.snd_soc_card_jack_new runtime.card "HDMI" SND_JACK_LINEOUT
         JackRef.hdmi_card_jack [{ pin := "HDMI", mask := SND_JACK_LINEOUT }] 1,
       Call.hdmi_codec_set_jack_detect dai1.codec JackRef.hdmi_card_jack,
       Call.snd_soc_card_jack_new runtime.card "Headset Jack"
         (SND_JACK_HEADSET ||| SND_JACK_BTN_0 ||| SND_JACK_BTN_1 ||| SND_JACK_BTN_2 |||
           SND_JACK_BTN_3) JackRef.headset_jack
         [{ pin := "Headphone", mask := SND_JACK_HEADPHONE },
          { pin := "Headset Mic", mask := SND_JACK_MICROPHONE }] 2] }) ∧
    popcount SND_JACK_LINEOUT = 1 := by
  have e1 : hdmi_jack_pin = [{ pin := "HDMI", mask := SND_JACK_LINEOUT }] := rfl
  have e2 : headset_jack_pins = [{ pin := "Headphone", mask := SND_JACK_HEADPHONE },
    { pin := "Headset Mic", mask := SND_JACK_MICROPHONE }] := rfl
  rw [rk_init_eq k runtime s dai1 h]
  simp only [e1, e2, h1, h2]
  exact ⟨by simp, by decide⟩

/-- C8 on `runtime0` from the initial state, every call succeeding: the three
calls, with the masks as numbers. -/
theorem rk_init_success_witness :
    (rk_init Kernel.ok runtime0 State.init = some (0, { State.init with calls :=
      [Call.snd_soc_card_jack_new runtime0.card "HDMI" 4
         JackRef.hdmi_card_jack [{ pin := "HDMI", mask := 4 }] 1,
       Call.hdmi_codec_set_jack_detect 300 JackRef.hdmi_card_jack,
       Call.snd_soc_card_jack_new runtime0.card "Headset Jack" 0x7803
         JackRef.headset_jack
         [{ pin := "Headphone", mask := 1 }, { pin := "Headset Mic", mask := 2 }] 2] })) ∧
    popcount SND_JACK_LINEOUT = 1 :=
  rk_init_success Kernel.ok runtime0 State.init hdmi_dai0 rfl rfl rfl

/-- C9 as stated fails: in the run of `rk_init` on `runtime0` in which every call
succeeds, the mask of the one headset jack creation is `0x7803`, which has six
bits set and not five. -/
theorem rk_init_headset_mask_not_five_bits :
    ∃ r s', rk_init Kernel.ok runtime0 State.init = some (r, s') ∧
      jack_new_types "Headset Jack" s'.calls = [0x7803] ∧
      popcount 0x7803 = 6 ∧
      ¬ (∀ m ∈ jack_new_types "Headset Jack" s'.calls, popcount m = 5) := by
  refine ⟨_, _, rfl, by decide, by decide, ?_⟩
  intro hall
  exact absurd (hall 0x7803 (by decide)) (by decide)

/-- C9 amended: once the HDMI jack is created, `rk_init` creates the headset jack
once, with the mask `SND_JACK_HEADSET | SND_JACK_BTN_0 | SND_JACK_BTN_1 |
SND_JACK_BTN_2 | SND_JACK_BTN_3`. That mask has exactly six bits set (bits 0, 1,
11, 12, 13 and 14): the two insert bits of `SND_JACK_HEADSET` (headphone and
microphone) and four button bits, each a single bit, pairwise distinct. -/
theorem rk_init_headset_mask (k : Kernel) (runtime : snd_soc_pcm_runtime) (s : State)
    (dai1 : snd_soc_dai) (h : runtime.codec_dais[1]? = some dai1)
    (h1 : k.snd_soc_card_jack_new runtime.card "HDMI" SND_JACK_LINEOUT
      JackRef.hdmi_card_jack hdmi_jack_pin 1 = 0) :
    ∃ r s' added, rk_init k runtime s = some (r, s') ∧ s'.calls = s.calls ++ added ∧
      jack_new_types "Headset Jack" added =
        [SND_JACK_HEADSET ||| SND_JACK_BTN_0 ||| SND_JACK_BTN_1 ||| SND_JACK_BTN_2 |||
          SND_JACK_BTN_3] ∧
      popcount (SND_JACK_HEADSET ||| SND_JACK_BTN_0 ||| SND_JACK_BTN_1 |||
        SND_JACK_BTN_2 ||| SND_JACK_BTN_3) = 6 ∧
      (List.range 32).filter (fun i => (SND_JACK_HEADSET ||| SND_JACK_BTN_0 |||
        SND_JACK_BTN_1 ||| SND_JACK_BTN_2 ||| SND_JACK_BTN_3).testBit i) =
        [0, 1, 11, 12, 13, 14] ∧
      SND_JACK_HEADSET = SND_JACK_HEADPHONE ||| SND_JACK_MICROPHONE ∧
      popcount SND_JACK_HEADSET = 2 ∧
      (∀ b ∈ [SND_JACK_BTN_0, SND_JACK_BTN_1, SND_JACK_BTN_2, SND_JACK_BTN_3],
        popcount b = 1 ∧ SND_JACK_HEADSET &&& b = 0) ∧
      [SND_JACK_BTN_0, SND_JACK_BTN_1, SND_JACK_BTN_2, SND_JACK_BTN_3].Nodup := by
  rw [rk_init_eq k runtime s dai1 h]
  simp only [h1, ne_eq, not_true_eq_false, if_false]
  refine ⟨_, _, _, rfl, rfl, ?_, by decide, by decide, rfl, by decide, by decide, by decide⟩
  simp [jack_new_types]

/-- C9 amended, on `runtime0` with every call succeeding. -/
theorem rk_init_headset_mask_witness :
    ∃ r s' added, rk_init Kernel.ok runtime0 State.init = some (r, s') ∧
      s'.calls = State.init.calls ++ added ∧
      jack_new_types "Headset Jack" added = [0x7803] ∧ popcount 0x7803 = 6 := by
  obtain ⟨r, s', added, he, hc, ht, hp, _⟩ :=
    rk_init_headset_mask Kernel.ok runtime0 State.init hdmi_dai0 rfl rfl
  exact ⟨r, s', added, he, hc, ht, hp⟩

/-! ## Properties of `snd_rk_mc_probe` -/

/-- The probe runs the seven steps in order up to the first failure: its result
and the calls it adds are those of `run_steps` on `probe_steps`. -/
theorem snd_rk_mc_probe_eq_run_steps (k : Kernel) (pdev : platform_device) (s : State) :
    (snd_rk_mc_probe k pdev s).1 = (run_steps (probe_steps k pdev s)).2 ∧
    (snd_rk_mc_probe k pdev s).2.calls =
      s.calls ++ (run_steps (probe_steps k pdev s)).1 := by
  by_cases h0 : k.of_parse_phandle pdev.dev.of_node "rockchip,audio-codec" 0 = none
  · simp [snd_rk_mc_probe, probe_steps, probe_lookup_steps, run_steps, State.call,
      State.dev_err, EINVAL, h0]
  by_cases h1 :
      (k.of_parse_phandle_with_fixed_args pdev.dev.of_node "rockchip,audio-codec" 0 0).1 = 0
  swap
  · simp [snd_rk_mc_probe, probe_steps, probe_lookup_steps, run_steps, State.call,
      State.dev_err, EINVAL, h0, h1]
  by_cases h2 : (k.snd_soc_get_dai_name
      (k.of_parse_phandle_with_fixed_args pdev.dev.of_node "rockchip,audio-codec" 0 0).2).1 = 0
  swap
  · simp [snd_rk_mc_probe, probe_steps, probe_lookup_steps, run_steps, State.call,
      State.dev_err, EINVAL, h0, h1, h2]
  by_cases h3 : k.of_parse_phandle pdev.dev.of_node "rockchip,i2s-controller" 0 = none
  · simp [snd_rk_mc_probe, probe_steps, probe_lookup_steps, run_steps, State.call,
      State.dev_err, EINVAL, h0, h1, h2, h3]
  by_cases h4 : k.of_parse_phandle pdev.dev.of_node "rockchip,headset-codec" 0 = none
  · simp [snd_rk_mc_probe, probe_steps, probe_lookup_steps, run_steps, State.call,
      State.dev_err, EINVAL, h0, h1, h2, h3, h4]
  by_cases h5 : (k.snd_soc_of_parse_card_name
      { s.snd_soc_card_rk with dev := some pdev.dev.id } "rockchip,model").1 = 0
  swap
  · simp [snd_rk_mc_probe, probe_steps, probe_lookup_steps, run_steps, State.call,
      State.dev_err, EINVAL, h0, h1, h2, h3, h4, h5]
  by_cases h6 : (probe_register_step k pdev s).2 = 0
  · have h6' := h6
    simp only [probe_register_step] at h6'
    simp [snd_rk_mc_probe, probe_steps, probe_lookup_steps, probe_register_step, run_steps,
      State.call, State.dev_err, EINVAL, h0, h1, h2, h3, h4, h5, h6']
  · have h6' := h6
    simp only [probe_register_step] at h6'
    simp [snd_rk_mc_probe, probe_steps, probe_lookup_steps, probe_register_step, run_steps,
      State.call, State.dev_err, EINVAL, h0, h1, h2, h3, h4, h5, h6']

/-- Running steps of which the first failing one is `st`: the calls are those up
to `st`, the code is that of `st`. -/
theorem run_steps_first_failure (pre : List (Call × Int)) (st : Call × Int)
    (post : List (Call × Int)) (hpre : ∀ x ∈ pre, x.2 = 0) (hst : st.2 ≠ 0) :
    run_steps (pre ++ st :: post) = (pre.map Prod.fst ++ [st.1], st.2) := by
  induction pre with
  | nil => simp [run_steps, hst]
  | cons x pre ih =>
    have hx : x.2 = 0 := hpre x (List.mem_cons_self _ _)
    have ih' := ih (fun y hy => hpre y (List.mem_cons_of_mem _ hy))
    obtain ⟨c, code⟩ := x
    simp only at hx
    subst hx
    simp [run_steps, ih']

/-- Running steps that all succeed but perhaps the last: every call is made and
the code is that of the last step. -/
theorem run_steps_append_last (l : List (Call × Int)) (r : Call × Int)
    (hl : ∀ x ∈ l, x.2 = 0) :
    run_steps (l ++ [r]) = (l.map Prod.fst ++ [r.1], r.2) := by
  by_cases hr : r.2 = 0
  · induction l with
    | nil =>
      obtain ⟨c, code⟩ := r
      simp only at hr
      subst hr
      simp [run_steps]
    | cons x l ih =>
      have hx : x.2 = 0 := hl x (List.mem_cons_self _ _)
      have ih' := ih (fun y hy => hl y (List.mem_cons_of_mem _ hy))
      obtain ⟨c, code⟩ := x
      simp only at hx
      subst hx
      simp [run_steps, ih']
  · exact run_steps_first_failure l r [] hl hr

/-- Running steps of which one among `l` fails: the code is not 0 and every call
made is a call of `l`. -/
theorem run_steps_append_fail (l rest : List (Call × Int))
    (hl : ¬ ∀ x ∈ l, x.2 = 0) :
    (run_steps (l ++ rest)).2 ≠ 0 ∧
      ∀ c ∈ (run_steps (l ++ rest)).1, c ∈ l.map Prod.fst := by
  induction l with
  | nil => simp at hl
  | cons x l ih =>
    obtain ⟨c, code⟩ := x
    by_cases hx : code = 0
    · subst hx
      have hl' : ¬ ∀ y ∈ l, y.2 = 0 := by
        intro hall
        apply hl
        intro y hy
        rcases List.mem_cons.mp hy with rfl | hy
        · rfl
        · exact hall y hy
      obtain ⟨h1, h2⟩ := ih hl'
      refine ⟨by simpa [run_steps] using h1, ?_⟩
      intro d hd
      simp only [List.cons_append, run_steps, ne_eq, not_true_eq_false, if_false,
        List.mem_cons] at hd
      rcases hd with rfl | hd
      · simp
      · exact List.mem_cons_of_mem _ (h2 d hd)
    · simp [run_steps, hx]

/-- No step before the registration is a card registration. -/
theorem probe_lookup_steps_not_registration (k : Kernel) (pdev : platform_device)
    (s : State) :
    ∀ c ∈ (probe_lookup_steps k pdev s).map Prod.fst, c.is_card_registration = false := by
  simp [probe_lookup_steps, Call.is_card_registration]

/-- When the probe returns 0, the platform node and the CPU node of the DAI link
are the node the I2S-controller reference resolved to. -/
theorem snd_rk_mc_probe_platform_node (k : Kernel) (pdev : platform_device) (s : State)
    (hz : (snd_rk_mc_probe k pdev s).1 = 0) :
    k.of_parse_phandle pdev.dev.of_node "rockchip,i2s-controller" 0 ≠ none ∧
    (snd_rk_mc_probe k pdev s).2.rk_dailink.platform_of_node =
      k.of_parse_phandle pdev.dev.of_node "rockchip,i2s-controller" 0 ∧
    (snd_rk_mc_probe k pdev s).2.rk_dailink.cpu_of_node =
      k.of_parse_phandle pdev.dev.of_node "rockchip,i2s-controller" 0 := by
  by_cases h0 : k.of_parse_phandle pdev.dev.of_node "rockchip,audio-codec" 0 = none
  · simp [snd_rk_mc_probe, State.call, State.dev_err, EINVAL, h0] at hz
  by_cases h1 :
      (k.of_parse_phandle_with_fixed_args pdev.dev.of_node "rockchip,audio-codec" 0 0).1 = 0
  swap
  · simp [snd_rk_mc_probe, State.call, State.dev_err, EINVAL, h0, h1] at hz
  by_cases h2 : (k.snd_soc_get_dai_name
      (k.of_parse_phandle_with_fixed_args pdev.dev.of_node "rockchip,audio-codec" 0 0).2).1 = 0
  swap
  · simp [snd_rk_mc_probe, State.call, State.dev_err, EINVAL, h0, h1, h2] at hz
  by_cases h3 : k.of_parse_phandle pdev.dev.of_node "rockchip,i2s-controller" 0 = none
  · simp [snd_rk_mc_probe, State.call, State.dev_err, EINVAL, h0, h1, h2, h3] at hz
  by_cases h4 : k.of_parse_phandle pdev.dev.of_node "rockchip,headset-codec" 0 = none
  · simp [snd_rk_mc_probe, State.call, State.dev_err, EINVAL, h0, h1, h2, h3, h4] at hz
  by_cases h5 : (k.snd_soc_of_parse_card_name
      { s.snd_soc_card_rk with dev := some pdev.dev.id } "rockchip,model").1 = 0
  swap
  · simp [snd_rk_mc_probe, State.call, State.dev_err, EINVAL, h0, h1, h2, h3, h4, h5] at hz
  refine ⟨h3, ?_, ?_⟩ <;>
    simp only [snd_rk_mc_probe, State.call, State.dev_err, h0, h1, h2, h3, h4, h5,
      ne_eq, not_true_eq_false, if_false] <;>
    split <;> rfl

/-- The registration step is a card registration. -/
theorem probe_register_step_is_registration (k : Kernel) (pdev : platform_device)
    (s : State) : (probe_register_step k pdev s).1.is_card_registration = true := by
  simp [probe_register_step, Call.is_card_registration]

/-- C10: the probe runs the seven steps of `probe_steps` in their order and stops
at the first failing one. If `st` is the first step with a non-zero code, the
probe returns the code of `st` (`-EINVAL` for an unresolved reference, else the
code the call returned) and the calls it has added are those of the steps up to
`st`, none of a later step. If no step fails it returns 0 after the seven calls.
The card registration is called at most once, and only when the six earlier
steps succeeded. The probe returns 0 exactly when the registration was called
and returned 0, and then the platform node of the DAI link is the node the
I2S-controller reference resolved to. -/
theorem snd_rk_mc_probe_order (k : Kernel) (pdev : platform_device) (s : State) :
    (∀ pre st post, probe_steps k pdev s = pre ++ st :: post →
        (∀ x ∈ pre, x.2 = 0) → st.2 ≠ 0 →
        (snd_rk_mc_probe k pdev s).1 = st.2 ∧
        (snd_rk_mc_probe k pdev s).2.calls = s.calls ++ (pre.map Prod.fst ++ [st.1])) ∧
    ((∀ x ∈ probe_steps k pdev s, x.2 = 0) →
        (snd_rk_mc_probe k pdev s).1 = 0 ∧
        (snd_rk_mc_probe k pdev s).2.calls =
          s.calls ++ (probe_steps k pdev s).map Prod.fst) ∧
    (∃ added, (snd_rk_mc_probe k pdev s).2.calls = s.calls ++ added ∧
        (added.filter Call.is_card_registration).length ≤ 1 ∧
        (∀ c ∈ added, c.is_card_registration = true →
          c = (probe_register_step k pdev s).1 ∧
          ∀ x ∈ probe_lookup_steps k pdev s, x.2 = 0) ∧
        ((snd_rk_mc_probe k pdev s).1 = 0 ↔
          (probe_register_step k pdev s).1 ∈ added ∧
          (probe_register_step k pdev s).2 = 0)) ∧
    ((snd_rk_mc_probe k pdev s).1 = 0 →
        (k.of_parse_phandle pdev.dev.of_node "rockchip,i2s-controller" 0).isSome = true ∧
        (snd_rk_mc_probe k pdev s).2.rk_dailink.platform_of_node =
          k.of_parse_phandle pdev.dev.of_node "rockchip,i2s-controller" 0) := by
  obtain ⟨hr, hc⟩ := snd_rk_mc_probe_eq_run_steps k pdev s
  have hreg := probe_register_step_is_registration k pdev s
  have hnot := probe_lookup_steps_not_registration k pdev s
  refine ⟨?_, ?_, ?_, ?_⟩
  · intro pre st post hsteps hpre hst
    rw [hr, hc, hsteps, run_steps_first_failure pre st post hpre hst]
    exact ⟨rfl, rfl⟩
  · intro hall
    have hl : ∀ x ∈ probe_lookup_steps k pdev s, x.2 = 0 := fun x hx =>
      hall x (by simp [probe_steps, hx])
    have hlast : (probe_register_step k pdev s).2 = 0 :=
      hall _ (by simp [probe_steps])
    rw [hr, hc]
    simp only [probe_steps]
    rw [run_steps_append_last _ _ hl]
    simp [hlast]
  · refine ⟨(run_steps (probe_steps k pdev s)).1, hc, ?_⟩
    rw [hr]
    simp only [probe_steps]
    by_cases hl : ∀ x ∈ probe_lookup_steps k pdev s, x.2 = 0
    · rw [run_steps_append_last _ _ hl]
      have hfil : ((probe_lookup_steps k pdev s).map Prod.fst).filter
          Call.is_card_registration = [] := by
        rw [List.filter_eq_nil_iff]
        intro c hcm
        simp [hnot c hcm]
      refine ⟨?_, ?_, ?_⟩
      · simp [List.filter_append, hfil, hreg]
      · intro c hcm hcr
        rcases List.mem_append.mp hcm with hcm | hcm
        · rw [hnot c hcm] at hcr
          exact absurd hcr (by decide)
        · exact ⟨List.mem_singleton.mp hcm, hl⟩
      · simp
    · obtain ⟨hne, hsub⟩ := run_steps_append_fail (probe_lookup_steps k pdev s)
        [probe_register_step k pdev s] hl
      refine ⟨?_, ?_, ?_⟩
      · have hfil : ((run_steps (probe_lookup_steps k pdev s ++
            [probe_register_step k pdev s])).1).filter Call.is_card_registration = [] := by
          rw [List.filter_eq_nil_iff]
          intro c hcm
          simp [hnot c (hsub c hcm)]
        simp [hfil]
      · intro c hcm hcr
        rw [hnot c (hsub c hcm)] at hcr
        exact absurd hcr (by decide)
      · constructor
        · intro hz
          exact absurd hz hne
        · rintro ⟨hmem, _⟩
          have := hnot _ (hsub _ hmem)
          rw [hreg] at this
          exact absurd this (by decide)
  · intro hz
    obtain ⟨h3, hp, _⟩ := snd_rk_mc_probe_platform_node k pdev s hz
    refine ⟨?_, hp⟩
    cases hn : k.of_parse_phandle pdev.dev.of_node "rockchip,i2s-controller" 0 with
    | none => exact absurd hn h3
    | some n => rfl

/-- C10 on `pdev0` from the initial state: with every call succeeding the probe
returns 0 after the seven calls; with the I2S-controller reference unresolved it
returns `-EINVAL` after the four calls up to that lookup. -/
theorem snd_rk_mc_probe_order_witness :
    ((snd_rk_mc_probe Kernel.ok pdev0 State.init).1 = 0 ∧
      (snd_rk_mc_probe Kernel.ok pdev0 State.init).2.calls =
        State.init.calls ++ (probe_steps Kernel.ok pdev0 State.init).map Prod.fst) ∧
    ((snd_rk_mc_probe (Kernel.unresolved "rockchip,i2s-controller") pdev0 State.init).1 =
        -EINVAL ∧
      (snd_rk_mc_probe (Kernel.unresolved "rockchip,i2s-controller") pdev0
          State.init).2.calls =
        State.init.calls ++
          ([Call.of_parse_phandle 100 "rockchip,audio-codec" 0,
            Call.of_parse_phandle_with_fixed_args 100 "rockchip,audio-codec" 0 0,
            Call.snd_soc_get_dai_name { np := some 7, args_count := 0, args := [] }] ++
           [Call.of_parse_phandle 100 "rockchip,i2s-controller" 0])) :=
  ⟨(snd_rk_mc_probe_order Kernel.ok pdev0 State.init).2.1 (by decide),
   (snd_rk_mc_probe_order (Kernel.unresolved "rockchip,i2s-controller") pdev0
      State.init).1
      [(Call.of_parse_phandle 100 "rockchip,audio-codec" 0, 0),
       (Call.of_parse_phandle_with_fixed_args 100 "rockchip,audio-codec" 0 0, 0),
       (Call.snd_soc_get_dai_name { np := some 7, args_count := 0, args := [] }, 0)]
      (Call.of_parse_phandle 100 "rockchip,i2s-controller" 0, -EINVAL)
      ((probe_steps (Kernel.unresolved "rockchip,i2s-controller") pdev0 State.init).drop 4)
      (by decide) (by decide) (by decide)⟩

end RockchipMax98090
